import Mathlib

/-!
# qemukvm-benchmark: shallow embedding of the bzip2 / snappy adapters and the driver

Sources embedded: `bzip2_compression.c`, `snappy_compression.c`, `main.c`.

Conventions of the embedding

* The C `float` accumulators are exact rationals (`ℚ`).
* `int` arithmetic wraps in two's complement (`to_int`); a conversion to
  `unsigned int` is reduction modulo `2 ^ 32` (`to_unsigned`).
* Everything a step obtains from outside the program (file sizes, whether a
  `malloc` returned a buffer, the status and length reported by the codec
  library, `fwrite` / `ferror` results, the two clock readings) is given to the
  step as an environment record, one record per call.
* The heap is the number of live buffers (`State.live`).  The fields
  `compress_calls` … `output_written` of `State` are instrumentation: they
  count calls and record sizes, and no step reads them.
* Diagnostic `puts` lines are not modelled; the three printed means are
  returned in `RunResult`.  `rewind` only moves a file position, which the
  embedding does not track.
-/

namespace QemuKvmBenchmark

/-- C `struct timespec`. -/
structure Timespec where
  tv_sec : Int
  tv_nsec : Int
deriving DecidableEq, Repr

/-- Modelled from the spec: `diff` of `util.c` (declared in `util.h`, not part
of the embedded sources), the difference `stop - start` of two timespecs with
the nanosecond field normalised by a borrow from the seconds. -/
def diff (start stop : Timespec) : Timespec :=
  if stop.tv_nsec - start.tv_nsec < 0 then
    { tv_sec := stop.tv_sec - start.tv_sec - 1
      tv_nsec := 1000000000 + stop.tv_nsec - start.tv_nsec }
  else
    { tv_sec := stop.tv_sec - start.tv_sec
      tv_nsec := stop.tv_nsec - start.tv_nsec }

/-- Wrap an integer into the range of a 32-bit `int`. -/
def to_int (x : Int) : Int := (x + 2 ^ 31) % 2 ^ 32 - 2 ^ 31

/-- Conversion to `unsigned int`. -/
def to_unsigned (x : Int) : Nat := (x % 2 ^ 32).toNat

/-- Conversion to a 64-bit `size_t`. -/
def to_size_t (x : Int) : Nat := (x % 2 ^ 64).toNat

/-- Status `BZ_OK` of `bzlib.h`. -/
def BZ_OK : Int := 0

/-- Process state shared by the steps of one adapter: its three static
accumulators, the live-buffer count, and instrumentation. -/
structure State where
  mean_compression_time : ℚ
  mean_compression_ratio : ℚ
  mean_decompression_time : ℚ
  live : Nat
  compress_calls : Nat
  decompress_calls : Nat
  lib_compress_calls : Nat
  lib_decompress_calls : Nat
  null_uses : Nat
  malloc_sizes : List Nat
  arch_written : List Nat
  output_written : List Nat

/-- Generic form of the two `for` loops of a run function
(`ret = step(...); if (ret == FAILURE) return ret; rewind(...)`):
`run_loop step FAILURE n i s` runs iterations `i, i+1, …, i+n-1`.  The result
is `some ret` when an iteration returned early. -/
def run_loop {σ : Type} (step : Nat → σ → Int × σ) (FAILURE : Int) :
    Nat → Nat → σ → Option Int × σ
  | 0, _, s => (none, s)
  | n + 1, i, s =>
    if (step i s).1 = FAILURE then (some (step i s).1, (step i s).2)
    else run_loop step FAILURE n (i + 1) (step i s).2

/-- State in which iteration `i + t` of a loop started at iteration `i` in
state `s` begins, when no earlier iteration returned early. -/
def loop_state {σ : Type} (step : Nat → σ → Int × σ) : Nat → Nat → σ → σ
  | 0, _, s => s
  | t + 1, i, s => loop_state step t (i + 1) (step i s).2

namespace Bzip2

/-- What one call of `compress` obtains from outside. -/
structure CompressEnv where
  file_size : Int
  buf_ok : Bool
  output_ok : Bool
  bz_error : Int
  bz_output_size : Nat
  start_ts : Timespec
  stop_ts : Timespec

/-- Line 38: `output_size = buf_size + (1/100 * buf_size) + 600;` evaluated in
`int` and stored into an `unsigned int`. -/
def output_size (buf_size : Int) : Nat :=
  to_unsigned (to_int (to_int (buf_size + to_int (to_int (Int.tdiv 1 100) * buf_size)) + 600))

/-- `compress` of `bzip2_compression.c`.  Returns the status, the value stored
through `source_len`, and the new state. -/
def compress (BZIP2_SUCCESS BZIP2_FAILURE : Int) (e : CompressEnv) (s : State) :
    Int × Nat × State :=
  let buf_size := e.file_size
  let source_len := to_unsigned buf_size
  let s := { s with compress_calls := s.compress_calls + 1
                    malloc_sizes := s.malloc_sizes ++ [to_size_t buf_size] }
  if !e.buf_ok then (BZIP2_FAILURE, source_len, s)
  else
    let s := { s with live := s.live + 1
                      malloc_sizes := s.malloc_sizes ++ [output_size buf_size] }
    if !e.output_ok then (BZIP2_FAILURE, source_len, { s with live := s.live - 1 })
    else
      let s := { s with live := s.live + 1
                        lib_compress_calls := s.lib_compress_calls + 1 }
      if e.bz_error ≠ BZ_OK then (BZIP2_FAILURE, source_len, s)
      else
        let output_size := e.bz_output_size
        let result_ts := diff e.start_ts e.stop_ts
        (BZIP2_SUCCESS, source_len,
          { s with
            arch_written := s.arch_written ++ [output_size]
            mean_compression_time := s.mean_compression_time + (result_ts.tv_nsec : ℚ) / 1000000
            mean_compression_ratio :=
              s.mean_compression_ratio + ((output_size : ℚ) / (buf_size : ℚ)) * 100 })

/-- What one call of `decompress` obtains from outside. -/
structure DecompressEnv where
  arch_size : Int
  input_ok : Bool
  output_ok : Bool
  bz_error : Int
  bz_source_len : Nat
  fwrite_ret : Nat
  ferror : Bool
  start_ts : Timespec
  stop_ts : Timespec

/-- `decompress` of `bzip2_compression.c`. -/
def decompress (BZIP2_SUCCESS BZIP2_FAILURE : Int) (e : DecompressEnv) (source_len : Nat)
    (s : State) : Int × State :=
  let s := { s with decompress_calls := s.decompress_calls + 1
                    malloc_sizes := s.malloc_sizes ++ [to_size_t e.arch_size, source_len]
                    live := s.live + (if e.input_ok then 1 else 0) + (if e.output_ok then 1 else 0) }
  if !e.input_ok && e.output_ok then (BZIP2_FAILURE, { s with live := s.live - 1 })
  else if !e.output_ok && e.input_ok then (BZIP2_FAILURE, { s with live := s.live - 1 })
  else
    -- `fread(input, ...)` and the library call
    let s := { s with
      null_uses := s.null_uses + (if e.input_ok then 0 else 1)
                     + (if e.input_ok && e.output_ok then 0 else 1)
      lib_decompress_calls := s.lib_decompress_calls + 1 }
    if e.bz_error ≠ BZ_OK then (BZIP2_FAILURE, s)
    else
      let source_len := e.bz_source_len
      -- `fwrite(output, 1, source_len, output_file)`
      let s := { s with
        null_uses := s.null_uses + (if e.output_ok then 0 else 1)
        output_written := s.output_written ++ [e.fwrite_ret] }
      if e.fwrite_ret ≠ source_len ∨ e.ferror then (BZIP2_FAILURE, s)
      else
        let s := { s with live := s.live - (if e.input_ok then 1 else 0) }
        let s := { s with live := s.live - (if e.output_ok then 1 else 0) }
        let result_ts := diff e.start_ts e.stop_ts
        (BZIP2_SUCCESS,
          { s with mean_decompression_time :=
              s.mean_decompression_time + (result_ts.tv_nsec : ℚ) / 1000000 })

/-- Outcome of a run function: its return value, the compression level it
printed, the three means it printed (`none` when the run returned before the
`printf`), and the final state. -/
structure RunResult where
  ret : Int
  level : Int
  mean_ratio : Option ℚ
  mean_compression_time : Option ℚ
  mean_decompression_time : Option ℚ
  state : State

/-- Body of the first loop of `run_bzip2`; the loop state is the pair of the
local `source_len` and the process state. -/
def compress_step (BZIP2_SUCCESS BZIP2_FAILURE : Int) (cenv : Nat → CompressEnv)
    (i : Nat) (p : Nat × State) : Int × (Nat × State) :=
  ((compress BZIP2_SUCCESS BZIP2_FAILURE (cenv i) p.2).1,
   (compress BZIP2_SUCCESS BZIP2_FAILURE (cenv i) p.2).2)

/-- Body of the second loop of `run_bzip2`. -/
def decompress_step (BZIP2_SUCCESS BZIP2_FAILURE : Int) (denv : Nat → DecompressEnv)
    (source_len : Nat) (i : Nat) (s : State) : Int × State :=
  decompress BZIP2_SUCCESS BZIP2_FAILURE (denv i) source_len s

/-- `run_bzip2` of `bzip2_compression.c`.  `cenv i` and `denv i` are the
environments of the `i`-th compress and decompress call (from 0);
`source_len` is the indeterminate initial value of the local of that name. -/
def run_bzip2 (BZIP2_SUCCESS BZIP2_FAILURE LOW_COMPRESSION : Int)
    (cenv : Nat → CompressEnv) (denv : Nat → DecompressEnv)
    (compression_level iterations : Int) (source_len : Nat) (s : State) : RunResult :=
  let level : Int := if compression_level = LOW_COMPRESSION then 1 else 9
  match run_loop (compress_step BZIP2_SUCCESS BZIP2_FAILURE cenv) BZIP2_FAILURE
      iterations.toNat 0 (source_len, s) with
  | (some ret, (_, s1)) => ⟨ret, level, none, none, none, s1⟩
  | (none, (source_len, s1)) =>
    let ratio := s1.mean_compression_ratio / (iterations : ℚ)
    let ctime := s1.mean_compression_time / (iterations : ℚ)
    match run_loop (decompress_step BZIP2_SUCCESS BZIP2_FAILURE denv source_len) BZIP2_FAILURE
        iterations.toNat 0 s1 with
    | (some ret, s2) => ⟨ret, level, some ratio, some ctime, none, s2⟩
    | (none, s2) =>
      ⟨BZIP2_SUCCESS, level, some ratio, some ctime,
        some (s2.mean_decompression_time / (iterations : ℚ)), s2⟩

/-- Loop state (local `source_len`, process state) with which the `i`-th
compress call (from 0) of a run starts, when no earlier call made the run
return. -/
def compress_pre (BZIP2_SUCCESS BZIP2_FAILURE : Int) (cenv : Nat → CompressEnv)
    (source_len : Nat) (s : State) (i : Nat) : Nat × State :=
  loop_state (compress_step BZIP2_SUCCESS BZIP2_FAILURE cenv) i 0 (source_len, s)

/-- Status returned by the `i`-th compress call of a run. -/
def compress_ret (BZIP2_SUCCESS BZIP2_FAILURE : Int) (cenv : Nat → CompressEnv)
    (source_len : Nat) (s : State) (i : Nat) : Int :=
  (compress BZIP2_SUCCESS BZIP2_FAILURE (cenv i)
    (compress_pre BZIP2_SUCCESS BZIP2_FAILURE cenv source_len s i).2).1

/-- State with which the `i`-th decompress call (from 0) of a run of `N`
iterations starts, when the `N` compress calls and the earlier decompress calls
did not make the run return. -/
def decompress_pre (BZIP2_SUCCESS BZIP2_FAILURE : Int) (cenv : Nat → CompressEnv)
    (denv : Nat → DecompressEnv) (source_len : Nat) (s : State) (N i : Nat) : State :=
  loop_state
    (decompress_step BZIP2_SUCCESS BZIP2_FAILURE denv
      (compress_pre BZIP2_SUCCESS BZIP2_FAILURE cenv source_len s N).1)
    i 0 (compress_pre BZIP2_SUCCESS BZIP2_FAILURE cenv source_len s N).2

/-- Status returned by the `i`-th decompress call of a run of `N` iterations. -/
def decompress_ret (BZIP2_SUCCESS BZIP2_FAILURE : Int) (cenv : Nat → CompressEnv)
    (denv : Nat → DecompressEnv) (source_len : Nat) (s : State) (N i : Nat) : Int :=
  (decompress BZIP2_SUCCESS BZIP2_FAILURE (denv i)
    (compress_pre BZIP2_SUCCESS BZIP2_FAILURE cenv source_len s N).1
    (decompress_pre BZIP2_SUCCESS BZIP2_FAILURE cenv denv source_len s N i)).1

end Bzip2

namespace Snappy

/-- What one call of snappy's `compress` obtains from outside.
`max_compressed_length` is the value of `snappy_max_compressed_length(buf_len)`,
`snappy_status` the status returned by `snappy_compress`, and `compressed_len`
the content of the variable of that name after that call. -/
structure CompressEnv where
  file_size : Int
  buffer_ok : Bool
  max_compressed_length : Nat
  compressed_ok : Bool
  snappy_status : Int
  compressed_len : Nat
  start_ts : Timespec
  stop_ts : Timespec

/-- `compress` of `snappy_compression.c` (the `STATS_MODE` build; the other
branch of the `#ifndef` only prints). -/
def compress (SNAPPY_SUCCESS SNAPPY_FAILURE : Int) (e : CompressEnv) (s : State) :
    Int × State :=
  let buf_len := e.file_size
  let s := { s with compress_calls := s.compress_calls + 1
                    malloc_sizes := s.malloc_sizes ++ [to_size_t buf_len] }
  if !e.buffer_ok then (SNAPPY_FAILURE, s)
  else
    let s := { s with live := s.live + 1
                      malloc_sizes := s.malloc_sizes ++ [e.max_compressed_length] }
    if !e.compressed_ok then (SNAPPY_FAILURE, { s with live := s.live - 1 })
    else
      -- the status of `snappy_compress` is not looked at
      let s := { s with live := s.live + 1
                        lib_compress_calls := s.lib_compress_calls + 1
                        arch_written := s.arch_written ++ [e.compressed_len] }
      let result_ts := diff e.start_ts e.stop_ts
      let s := { s with
        mean_compression_time := s.mean_compression_time + (result_ts.tv_nsec : ℚ) / 1000000
        mean_compression_ratio :=
          s.mean_compression_ratio + ((e.compressed_len : ℚ) / (buf_len : ℚ)) * 100 }
      (SNAPPY_SUCCESS, { s with live := s.live - 1 - 1 })

/-- What one call of snappy's `decompress` obtains from outside.
`uncompressed_len` is the content of the variable of that name after
`snappy_uncompressed_length`. -/
structure DecompressEnv where
  file_size : Int
  compressed_ok : Bool
  uncompressed_len : Nat
  uncompressed_ok : Bool
  snappy_status : Int
  start_ts : Timespec
  stop_ts : Timespec

/-- `decompress` of `snappy_compression.c`. -/
def decompress (SNAPPY_SUCCESS SNAPPY_FAILURE : Int) (e : DecompressEnv) (s : State) :
    Int × State :=
  let compressed_len := e.file_size
  let s := { s with decompress_calls := s.decompress_calls + 1
                    malloc_sizes := s.malloc_sizes ++ [to_size_t compressed_len] }
  if !e.compressed_ok then (SNAPPY_FAILURE, s)
  else
    let s := { s with live := s.live + 1
                      malloc_sizes := s.malloc_sizes ++ [e.uncompressed_len] }
    if !e.uncompressed_ok then (SNAPPY_FAILURE, { s with live := s.live - 1 })
    else
      -- the status of `snappy_uncompress` is not looked at
      let s := { s with live := s.live + 1
                        lib_decompress_calls := s.lib_decompress_calls + 1 }
      let result_ts := diff e.start_ts e.stop_ts
      (SNAPPY_SUCCESS,
        { s with mean_decompression_time :=
            s.mean_decompression_time + (result_ts.tv_nsec : ℚ) / 1000000 })

end Snappy

namespace Main

/-- Modelled from the spec: the values of `options.library` (`bench_options`
and the `LIB_*` constants are declared in a header that is not part of the
embedded sources).  The four case labels of one `switch` are pairwise distinct;
`other` is any value that matches none of them. -/
inductive Library where
  | LIB_ZLIB
  | LIB_BZIP2
  | LIB_SNAPPY
  | LIB_LZO
  | other
deriving DecidableEq, Repr

/-- Whether the two `fopen` calls of `run_benchmark` returned a stream. -/
structure BenchEnv where
  archfile_ok : Bool
  outputfile_ok : Bool
deriving DecidableEq, Repr

/-- Outcome of `run_benchmark`: the status it returns, and the value the run
function it called returned (`none` when none was called). -/
structure BenchResult where
  ret : Int
  run_ret : Option Int
deriving DecidableEq, Repr

/-- `run_benchmark` of `main.c`.  `run_zlib` … `run_lzo` are the values the
respective run function returns when called.  All four cases have the same
shape: open both files (return 1 when one fails), call the run function as an
expression statement, close the files, `break`, and `return 0`. -/
def run_benchmark (library : Library) (e : BenchEnv)
    (run_zlib run_bzip2 run_snappy run_lzo : Int) : BenchResult :=
  let case (run : Int) : BenchResult :=
    if !e.archfile_ok then ⟨1, none⟩
    else if !e.outputfile_ok then ⟨1, none⟩
    else ⟨0, some run⟩
  match library with
  | .LIB_ZLIB => case run_zlib
  | .LIB_BZIP2 => case run_bzip2
  | .LIB_SNAPPY => case run_snappy
  | .LIB_LZO => case run_lzo
  | .other => ⟨1, none⟩

end Main

/-! ## Concrete inputs used by the evaluations below -/

/-- State at process start: the static accumulators are zero-initialised and
no buffer is live. -/
def State.init : State :=
  { mean_compression_time := 0, mean_compression_ratio := 0, mean_decompression_time := 0
    live := 0, compress_calls := 0, decompress_calls := 0, lib_compress_calls := 0
    lib_decompress_calls := 0, null_uses := 0, malloc_sizes := [], arch_written := []
    output_written := [] }

/-- Clock reading at the start of a step that lasts one and a half seconds. -/
def ts_start : Timespec := { tv_sec := 1700000000, tv_nsec := 250000000 }

/-- Clock reading one and a half seconds after `ts_start`. -/
def ts_stop : Timespec := { tv_sec := 1700000001, tv_nsec := 750000000 }

/-- Whole duration of a timespec difference in milliseconds, as a specification
writes it: `tv_sec * 1000 + tv_nsec / 10^6`. -/
def spec_duration_ms (ts : Timespec) : ℚ := (ts.tv_sec : ℚ) * 1000 + (ts.tv_nsec : ℚ) / 1000000

/-- A bzip2 compress call on a 1000-byte file: both buffers are allocated and
the library returns `BZ_OK` with 400 bytes of output. -/
def Bzip2.cenv_ok : Bzip2.CompressEnv :=
  { file_size := 1000, buf_ok := true, output_ok := true, bz_error := 0
    bz_output_size := 400, start_ts := ts_start, stop_ts := ts_stop }

/-- As `cenv_ok`, but the library returns `BZ_OUTBUFF_FULL` (-8). -/
def Bzip2.cenv_codec_fail : Bzip2.CompressEnv :=
  { Bzip2.cenv_ok with bz_error := -8 }

/-- A bzip2 compress call whose first `malloc` returns `NULL`. -/
def Bzip2.cenv_alloc_fail : Bzip2.CompressEnv :=
  { Bzip2.cenv_ok with buf_ok := false }

/-- A bzip2 decompress call on a 400-byte archive: both buffers are allocated,
the library returns `BZ_OK` and reports 1000 bytes, all of which are written. -/
def Bzip2.denv_ok : Bzip2.DecompressEnv :=
  { arch_size := 400, input_ok := true, output_ok := true, bz_error := 0
    bz_source_len := 1000, fwrite_ret := 1000, ferror := false
    start_ts := ts_start, stop_ts := ts_stop }

/-- As `denv_ok`, but the library returns `BZ_DATA_ERROR` (-4). -/
def Bzip2.denv_codec_fail : Bzip2.DecompressEnv :=
  { Bzip2.denv_ok with bz_error := -4 }

/-- As `denv_ok`, but `fwrite` writes only 512 of the 1000 bytes. -/
def Bzip2.denv_write_fail : Bzip2.DecompressEnv :=
  { Bzip2.denv_ok with fwrite_ret := 512 }

/-- A bzip2 decompress call in which both `malloc` calls return `NULL`; the
library, handed null buffers, returns `BZ_PARAM_ERROR` (-2). -/
def Bzip2.denv_both_null : Bzip2.DecompressEnv :=
  { Bzip2.denv_ok with input_ok := false, output_ok := false, bz_error := -2 }

/-- A bzip2 decompress call on an archive that holds 10 bytes of data: the
library returns `BZ_OK` and reports 10 bytes, all of which are written. -/
def Bzip2.denv_short : Bzip2.DecompressEnv :=
  { Bzip2.denv_ok with bz_source_len := 10, fwrite_ret := 10 }

/-- A snappy compress call on a 1000-byte file: both buffers are allocated and
`snappy_compress` returns `SNAPPY_BUFFER_TOO_SMALL` (2). -/
def Snappy.cenv_codec_fail : Snappy.CompressEnv :=
  { file_size := 1000, buffer_ok := true, max_compressed_length := 1198, compressed_ok := true
    snappy_status := 2, compressed_len := 0, start_ts := ts_start, stop_ts := ts_stop }

/-- A snappy decompress call on a 400-byte archive of 1000 bytes of data: both
buffers are allocated and `snappy_uncompress` returns `SNAPPY_OK` (0). -/
def Snappy.denv_ok : Snappy.DecompressEnv :=
  { file_size := 400, compressed_ok := true, uncompressed_len := 1000, uncompressed_ok := true
    snappy_status := 0, start_ts := ts_start, stop_ts := ts_stop }

/-- Compress environments of a run whose first compress call succeeds and
whose later compress calls fail to allocate the input buffer. -/
def Bzip2.cenv_fail_after_first (i : Nat) : Bzip2.CompressEnv :=
  if i = 0 then Bzip2.cenv_ok else Bzip2.cenv_alloc_fail

/-- Decompress environments of a run whose first decompress call succeeds and
whose later decompress calls meet a codec failure. -/
def Bzip2.denv_fail_after_first (i : Nat) : Bzip2.DecompressEnv :=
  if i = 0 then Bzip2.denv_ok else Bzip2.denv_codec_fail

/-! ## Capacity of the bzip2 output buffer -/

theorem to_int_of_range (x : Int) (h0 : -2 ^ 31 ≤ x) (h1 : x < 2 ^ 31) : to_int x = x := by
  unfold to_int
  omega

theorem Bzip2.output_size_margin_zero (buf_size : Int) :
    to_int (to_int (Int.tdiv 1 100) * buf_size) = 0 := by
  have h : Int.tdiv 1 100 = 0 := by decide
  rw [h]
  simp [to_int]

theorem Bzip2.output_size_eq (L : Int) (h0 : 0 ≤ L) (h1 : L ≤ 2 ^ 31 - 1) :
    (Bzip2.output_size L : Int) = L + 600 := by
  unfold Bzip2.output_size
  rw [Bzip2.output_size_margin_zero, add_zero, to_int_of_range L (by omega) (by omega)]
  unfold to_int to_unsigned
  omega

/-- C5: at a source size of 100 bytes the capacity computed by the bzip2
compress step is 700, below the `100 + 100/100 + 600 = 701` that a margin of
one percent requires: the margin term `1/100 * buf_size` is zero. -/
theorem Bzip2.output_size_margin_truncates :
    Bzip2.output_size 100 = 700 ∧ ¬ (100 + 100 / 100 + 600 ≤ Bzip2.output_size 100) := by
  have h := Bzip2.output_size_eq 100 (by norm_num) (by norm_num)
  have h2 : Bzip2.output_size 100 = 700 := by omega
  rw [h2]
  decide

/-- C6: for every source length `0 ≤ L ≤ 2^31 - 1` the capacity `output_size`
computed by the bzip2 compress step is at least `L`. -/
theorem Bzip2.output_size_ge_source (L : Int) (h0 : 0 ≤ L) (h1 : L ≤ 2 ^ 31 - 1) :
    L ≤ (Bzip2.output_size L : Int) := by
  rw [Bzip2.output_size_eq L h0 h1]
  omega

theorem Bzip2.output_size_ge_source_witness :
    (0 : Int) ≤ 2147483647 ∧ (2147483647 : Int) ≤ 2 ^ 31 - 1 ∧
      (2147483647 : Int) ≤ (Bzip2.output_size 2147483647 : Int) :=
  ⟨by norm_num, by norm_num,
    Bzip2.output_size_ge_source 2147483647 (by norm_num) (by norm_num)⟩

/-! ## Single steps -/

theorem diff_ts_start_stop : diff ts_start ts_stop = { tv_sec := 1, tv_nsec := 500000000 } := by
  decide

/-- C2: with both buffers allocated and `snappy_compress` reporting
`SNAPPY_BUFFER_TOO_SMALL`, snappy's `compress` returns `SNAPPY_SUCCESS`
whatever the two return codes are and whatever the state. -/
theorem Snappy.compress_ignores_status (SNAPPY_SUCCESS SNAPPY_FAILURE : Int) (s : State) :
    Snappy.cenv_codec_fail.snappy_status ≠ 0 ∧
      (Snappy.compress SNAPPY_SUCCESS SNAPPY_FAILURE Snappy.cenv_codec_fail s).1
        = SNAPPY_SUCCESS := by
  refine ⟨by decide, ?_⟩
  simp [Snappy.compress, Snappy.cenv_codec_fail]

/-- C3: when both `malloc` calls of the bzip2 `decompress` return `NULL`, the
step does not return at the allocation checks: it calls the library once and
passes a null buffer to `fread` and to the library call. -/
theorem Bzip2.decompress_both_null_reaches_library (BZIP2_SUCCESS BZIP2_FAILURE : Int)
    (source_len : Nat) (s : State) :
    (Bzip2.decompress BZIP2_SUCCESS BZIP2_FAILURE Bzip2.denv_both_null source_len s).2.lib_decompress_calls
        = s.lib_decompress_calls + 1 ∧
      (Bzip2.decompress BZIP2_SUCCESS BZIP2_FAILURE Bzip2.denv_both_null source_len s).2.null_uses
        = s.null_uses + 2 := by
  simp [Bzip2.decompress, Bzip2.denv_both_null, Bzip2.denv_ok, BZ_OK]

/-- C4 (as stated, refuted): called with a recorded length of 1000 on an
archive for which the library reports 10 bytes, the bzip2 `decompress` returns
`BZIP2_SUCCESS` (here 0, with `BZIP2_FAILURE` = 1) after writing 10 bytes. -/
theorem Bzip2.decompress_success_with_other_length :
    (Bzip2.decompress 0 1 Bzip2.denv_short 1000 State.init).1 = 0 ∧
      (Bzip2.decompress 0 1 Bzip2.denv_short 1000 State.init).2.output_written = [10] ∧
      (10 : Nat) ≠ 1000 := by
  simp [Bzip2.decompress, Bzip2.denv_short, Bzip2.denv_ok, BZ_OK, State.init]

/-- C4 (amended): whenever the bzip2 `decompress` returns `BZIP2_SUCCESS`, it
made exactly one write to the output stream, and the number of bytes written
is the decompressed length reported by the library. -/
theorem Bzip2.decompress_success_writes_reported_length
    (BZIP2_SUCCESS BZIP2_FAILURE : Int) (hne : BZIP2_SUCCESS ≠ BZIP2_FAILURE)
    (e : Bzip2.DecompressEnv) (source_len : Nat) (s : State)
    (hret : (Bzip2.decompress BZIP2_SUCCESS BZIP2_FAILURE e source_len s).1 = BZIP2_SUCCESS) :
    (Bzip2.decompress BZIP2_SUCCESS BZIP2_FAILURE e source_len s).2.output_written
      = s.output_written ++ [e.bz_source_len] := by
  have hne2 : BZIP2_FAILURE ≠ BZIP2_SUCCESS := fun h => hne h.symm
  unfold Bzip2.decompress at hret ⊢
  simp only at hret ⊢
  by_cases h1 : (!e.input_ok && e.output_ok) = true
  · rw [if_pos h1] at hret
    exact absurd hret hne2
  rw [if_neg h1] at hret ⊢
  by_cases h2 : (!e.output_ok && e.input_ok) = true
  · rw [if_pos h2] at hret
    exact absurd hret hne2
  rw [if_neg h2] at hret ⊢
  by_cases h3 : e.bz_error ≠ BZ_OK
  · rw [if_pos h3] at hret
    exact absurd hret hne2
  rw [if_neg h3] at hret ⊢
  by_cases h4 : e.fwrite_ret ≠ e.bz_source_len ∨ e.ferror = true
  · rw [if_pos h4] at hret
    exact absurd hret hne2
  rw [if_neg h4]
  have h5 : e.fwrite_ret = e.bz_source_len := by
    by_contra hc
    exact h4 (Or.inl hc)
  simp [h5]

theorem Bzip2.decompress_success_writes_reported_length_witness :
    (0 : Int) ≠ 1 ∧
      (Bzip2.decompress 0 1 Bzip2.denv_short 1000 State.init).2.output_written
        = State.init.output_written ++ [Bzip2.denv_short.bz_source_len] :=
  ⟨by decide,
    Bzip2.decompress_success_writes_reported_length 0 1 (by decide) Bzip2.denv_short 1000
      State.init (by simp [Bzip2.decompress, Bzip2.denv_short, Bzip2.denv_ok, BZ_OK])⟩

/-- C8: for a step that lasts one and a half seconds, the four steps add 500
to their time accumulator, while the whole duration of the timespec difference
is 1500 milliseconds: the seconds of the difference are not added. -/
theorem elapsed_time_drops_seconds (SUCCESS FAILURE : Int) (s : State) :
    spec_duration_ms (diff ts_start ts_stop) = 1500 ∧
      (Bzip2.compress SUCCESS FAILURE Bzip2.cenv_ok s).2.2.mean_compression_time
        = s.mean_compression_time + 500 ∧
      (Bzip2.decompress SUCCESS FAILURE Bzip2.denv_ok 1000 s).2.mean_decompression_time
        = s.mean_decompression_time + 500 ∧
      (Snappy.compress SUCCESS FAILURE Snappy.cenv_codec_fail s).2.mean_compression_time
        = s.mean_compression_time + 500 ∧
      (Snappy.decompress SUCCESS FAILURE Snappy.denv_ok s).2.mean_decompression_time
        = s.mean_decompression_time + 500 := by
  refine ⟨?_, ?_, ?_, ?_, ?_⟩
  · rw [diff_ts_start_stop]; norm_num [spec_duration_ms]
  · simp [Bzip2.compress, Bzip2.cenv_ok, BZ_OK, diff_ts_start_stop]; norm_num
  · simp [Bzip2.decompress, Bzip2.denv_ok, BZ_OK, diff_ts_start_stop]; norm_num
  · simp [Snappy.compress, Snappy.cenv_codec_fail, diff_ts_start_stop]; norm_num
  · simp [Snappy.decompress, Snappy.denv_ok, diff_ts_start_stop]; norm_num

/-- C10: buffers that stay live when a step returns.  The bzip2 `compress`
returns with two more live buffers than at entry on its success path and on
its codec-failure path; the bzip2 `decompress` does so on its codec-failure
and write-failure paths; snappy's `decompress` does so on its success path. -/
theorem steps_leave_buffers_live (SUCCESS FAILURE : Int) (s : State) :
    (Bzip2.compress SUCCESS FAILURE Bzip2.cenv_ok s).1 = SUCCESS ∧
      (Bzip2.compress SUCCESS FAILURE Bzip2.cenv_ok s).2.2.live = s.live + 2 ∧
      (Bzip2.compress SUCCESS FAILURE Bzip2.cenv_codec_fail s).2.2.live = s.live + 2 ∧
      (Bzip2.decompress SUCCESS FAILURE Bzip2.denv_codec_fail 1000 s).2.live = s.live + 2 ∧
      (Bzip2.decompress SUCCESS FAILURE Bzip2.denv_write_fail 1000 s).2.live = s.live + 2 ∧
      (Snappy.decompress SUCCESS FAILURE Snappy.denv_ok s).1 = SUCCESS ∧
      (Snappy.decompress SUCCESS FAILURE Snappy.denv_ok s).2.live = s.live + 2 := by
  refine ⟨?_, ?_, ?_, ?_, ?_, ?_, ?_⟩
  · simp [Bzip2.compress, Bzip2.cenv_ok, BZ_OK]
  · simp [Bzip2.compress, Bzip2.cenv_ok, BZ_OK]
  · simp [Bzip2.compress, Bzip2.cenv_codec_fail, Bzip2.cenv_ok, BZ_OK]
  · simp [Bzip2.decompress, Bzip2.denv_codec_fail, Bzip2.denv_ok, BZ_OK]
  · simp [Bzip2.decompress, Bzip2.denv_write_fail, Bzip2.denv_ok, BZ_OK]
  · simp [Snappy.decompress, Snappy.denv_ok]
  · simp [Snappy.decompress, Snappy.denv_ok]

theorem Bzip2.compress_codec_failure (S F : Int) (e : Bzip2.CompressEnv) (s : State)
    (hbuf : e.buf_ok = true) (hout : e.output_ok = true) (herr : e.bz_error ≠ BZ_OK) :
    (Bzip2.compress S F e s).1 = F := by
  simp [Bzip2.compress, hbuf, hout, herr]

theorem Bzip2.decompress_one_null (S F : Int) (e : Bzip2.DecompressEnv) (source_len : Nat)
    (s : State) (h : e.input_ok ≠ e.output_ok) :
    (Bzip2.decompress S F e source_len s).1 = F ∧
      (Bzip2.decompress S F e source_len s).2.lib_decompress_calls = s.lib_decompress_calls ∧
      (Bzip2.decompress S F e source_len s).2.null_uses = s.null_uses ∧
      (Bzip2.decompress S F e source_len s).2.live = s.live := by
  cases hi : e.input_ok <;> cases ho : e.output_ok <;> simp_all [Bzip2.decompress]

/-! ## The driver -/

/-- C9 (as stated, refuted): with bzip2 selected and both files opened,
`run_bzip2` returns `BZIP2_FAILURE` (here 1, with `BZIP2_SUCCESS` = 0) because
the first `malloc` of the first compress call fails, and `run_benchmark`
returns 0. -/
theorem Main.run_benchmark_returns_zero_on_run_failure :
    (Bzip2.run_bzip2 0 1 0 (fun _ => Bzip2.cenv_alloc_fail) (fun _ => Bzip2.denv_ok)
        1 1 0 State.init).ret = 1 ∧
      (Main.run_benchmark .LIB_BZIP2 ⟨true, true⟩ 0
        (Bzip2.run_bzip2 0 1 0 (fun _ => Bzip2.cenv_alloc_fail) (fun _ => Bzip2.denv_ok)
          1 1 0 State.init).ret 0 0).ret = 0 := by
  constructor
  · simp [Bzip2.run_bzip2, run_loop, Bzip2.compress_step, Bzip2.compress, Bzip2.cenv_alloc_fail,
      Bzip2.cenv_ok]
  · simp [Main.run_benchmark]

/-- C9 (amended): for each of the four library selections, with both files
opened, `run_benchmark` calls the selected run function, discards the value it
returns, and returns 0. -/
theorem Main.run_benchmark_discards_run_status (library : Main.Library) (e : Main.BenchEnv)
    (run_zlib run_bzip2 run_snappy run_lzo : Int)
    (hlib : library ≠ Main.Library.other)
    (harch : e.archfile_ok = true) (hout : e.outputfile_ok = true) :
    (Main.run_benchmark library e run_zlib run_bzip2 run_snappy run_lzo).ret = 0 ∧
      (Main.run_benchmark library e run_zlib run_bzip2 run_snappy run_lzo).run_ret
        = some (match library with
            | .LIB_ZLIB => run_zlib
            | .LIB_BZIP2 => run_bzip2
            | .LIB_SNAPPY => run_snappy
            | .LIB_LZO => run_lzo
            | .other => 0) := by
  cases library <;> first | exact absurd rfl hlib | simp_all [Main.run_benchmark]

theorem Main.run_benchmark_discards_run_status_witness :
    (Main.run_benchmark .LIB_SNAPPY ⟨true, true⟩ 0 0 7 0).ret = 0 ∧
      (Main.run_benchmark .LIB_SNAPPY ⟨true, true⟩ 0 0 7 0).run_ret = some 7 :=
  Main.run_benchmark_discards_run_status .LIB_SNAPPY ⟨true, true⟩ 0 0 7 0 (by decide) rfl rfl

/-! ## The loops of a run function -/

theorem loop_state_succ {σ : Type} (step : Nat → σ → Int × σ) (t i : Nat) (s : σ) :
    loop_state step (t + 1) i s = (step (i + t) (loop_state step t i s)).2 := by
  induction t generalizing i s with
  | zero => simp [loop_state]
  | succ t ih =>
    have e : i + 1 + t = i + (t + 1) := by omega
    rw [loop_state, ih (i + 1) (step i s).2, e]
    rfl

theorem run_loop_abort {σ : Type} (step : Nat → σ → Int × σ) (FAILURE : Int) :
    ∀ (j n i : Nat) (s : σ), j < n →
      (∀ t, t < j → (step (i + t) (loop_state step t i s)).1 ≠ FAILURE) →
      (step (i + j) (loop_state step j i s)).1 = FAILURE →
      run_loop step FAILURE n i s = (some FAILURE, loop_state step (j + 1) i s) := by
  intro j
  induction j with
  | zero =>
    intro n i s hn _ hf
    obtain ⟨m, rfl⟩ : ∃ m, n = m + 1 := ⟨n - 1, by omega⟩
    simp only [loop_state, Nat.add_zero] at hf ⊢
    rw [run_loop, if_pos hf, hf]
  | succ j ih =>
    intro n i s hn hs hf
    obtain ⟨m, rfl⟩ : ∃ m, n = m + 1 := ⟨n - 1, by omega⟩
    have h0 : (step i s).1 ≠ FAILURE := by
      have := hs 0 (by omega)
      simpa [loop_state] using this
    rw [run_loop, if_neg h0]
    have e : ∀ t, i + 1 + t = i + (t + 1) := fun t => by omega
    rw [ih m (i + 1) (step i s).2 (by omega)]
    · rfl
    · intro t ht
      have := hs (t + 1) (by omega)
      rw [e]
      exact this
    · rw [e]
      exact hf

theorem run_loop_complete {σ : Type} (step : Nat → σ → Int × σ) (FAILURE : Int) :
    ∀ (n i : Nat) (s : σ),
      (∀ t, t < n → (step (i + t) (loop_state step t i s)).1 ≠ FAILURE) →
      run_loop step FAILURE n i s = (none, loop_state step n i s) := by
  intro n
  induction n with
  | zero =>
    intro i s _
    rfl
  | succ n ih =>
    intro i s hs
    have h0 : (step i s).1 ≠ FAILURE := by
      have := hs 0 (by omega)
      simpa [loop_state] using this
    have e : ∀ t, i + 1 + t = i + (t + 1) := fun t => by omega
    rw [run_loop, if_neg h0, ih (i + 1) (step i s).2]
    · rfl
    · intro t ht
      have := hs (t + 1) (by omega)
      rw [e]
      exact this

theorem Bzip2.compress_counts (S F : Int) (e : Bzip2.CompressEnv) (s : State) :
    (Bzip2.compress S F e s).2.2.compress_calls = s.compress_calls + 1 ∧
      (Bzip2.compress S F e s).2.2.decompress_calls = s.decompress_calls := by
  unfold Bzip2.compress
  simp only
  split_ifs <;> simp

theorem Bzip2.decompress_counts (S F : Int) (e : Bzip2.DecompressEnv) (source_len : Nat)
    (s : State) :
    (Bzip2.decompress S F e source_len s).2.compress_calls = s.compress_calls ∧
      (Bzip2.decompress S F e source_len s).2.decompress_calls = s.decompress_calls + 1 := by
  unfold Bzip2.decompress
  simp only
  split_ifs <;> simp

theorem Bzip2.compress_pre_counts (S F : Int) (cenv : Nat → Bzip2.CompressEnv)
    (source_len : Nat) (s : State) (i : Nat) :
    (Bzip2.compress_pre S F cenv source_len s i).2.compress_calls = s.compress_calls + i ∧
      (Bzip2.compress_pre S F cenv source_len s i).2.decompress_calls = s.decompress_calls := by
  induction i with
  | zero => simp [Bzip2.compress_pre, loop_state]
  | succ i ih =>
    unfold Bzip2.compress_pre at ih ⊢
    rw [loop_state_succ]
    have h := Bzip2.compress_counts S F (cenv (0 + i))
      (loop_state (Bzip2.compress_step S F cenv) i 0 (source_len, s)).2
    simp only [Bzip2.compress_step]
    rw [h.1, h.2, ih.1, ih.2]
    exact ⟨by omega, rfl⟩

theorem Bzip2.decompress_pre_counts (S F : Int) (cenv : Nat → Bzip2.CompressEnv)
    (denv : Nat → Bzip2.DecompressEnv) (source_len : Nat) (s : State) (N i : Nat) :
    (Bzip2.decompress_pre S F cenv denv source_len s N i).compress_calls = s.compress_calls + N ∧
      (Bzip2.decompress_pre S F cenv denv source_len s N i).decompress_calls
        = s.decompress_calls + i := by
  induction i with
  | zero =>
    simpa [Bzip2.decompress_pre, loop_state] using Bzip2.compress_pre_counts S F cenv source_len s N
  | succ i ih =>
    unfold Bzip2.decompress_pre at ih ⊢
    rw [loop_state_succ]
    simp only [Bzip2.decompress_step]
    have h := Bzip2.decompress_counts S F (denv (0 + i))
      (Bzip2.compress_pre S F cenv source_len s N).1
      (loop_state (Bzip2.decompress_step S F denv (Bzip2.compress_pre S F cenv source_len s N).1)
        i 0 (Bzip2.compress_pre S F cenv source_len s N).2)
    simp only [Bzip2.decompress_step] at h ih
    rw [h.1, h.2, ih.1, ih.2]
    exact ⟨rfl, by omega⟩

theorem Bzip2.run_bzip2_compress_abort (S F LOW : Int) (cenv : Nat → Bzip2.CompressEnv)
    (denv : Nat → Bzip2.DecompressEnv) (compression_level : Int) (N source_len : Nat)
    (s : State) (p : Nat × State)
    (h : run_loop (Bzip2.compress_step S F cenv) F N 0 (source_len, s) = (some F, p)) :
    (Bzip2.run_bzip2 S F LOW cenv denv compression_level (N : Int) source_len s).ret = F ∧
      (Bzip2.run_bzip2 S F LOW cenv denv compression_level (N : Int) source_len s).state = p.2 := by
  obtain ⟨sl1, s1⟩ := p
  simp [Bzip2.run_bzip2, h]

theorem Bzip2.run_bzip2_decompress_abort (S F LOW : Int) (cenv : Nat → Bzip2.CompressEnv)
    (denv : Nat → Bzip2.DecompressEnv) (compression_level : Int) (N source_len : Nat)
    (s : State) (p : Nat × State) (s2 : State)
    (h : run_loop (Bzip2.compress_step S F cenv) F N 0 (source_len, s) = (none, p))
    (h2 : run_loop (Bzip2.decompress_step S F denv p.1) F N 0 p.2 = (some F, s2)) :
    (Bzip2.run_bzip2 S F LOW cenv denv compression_level (N : Int) source_len s).ret = F ∧
      (Bzip2.run_bzip2 S F LOW cenv denv compression_level (N : Int) source_len s).state = s2 := by
  obtain ⟨sl1, s1⟩ := p
  simp only at h2
  simp [Bzip2.run_bzip2, h, h2]

theorem Bzip2.mean_ratio_of_compress_complete (S F LOW : Int) (cenv : Nat → Bzip2.CompressEnv)
    (denv : Nat → Bzip2.DecompressEnv) (compression_level : Int) (N source_len : Nat)
    (s : State) (p : Nat × State)
    (h : run_loop (Bzip2.compress_step S F cenv) F N 0 (source_len, s) = (none, p)) :
    (Bzip2.run_bzip2 S F LOW cenv denv compression_level (N : Int) source_len s).mean_ratio
      = some (p.2.mean_compression_ratio / (N : ℚ)) := by
  obtain ⟨sl1, s1⟩ := p
  unfold Bzip2.run_bzip2
  simp only [Int.toNat_ofNat, h]
  rcases hd : run_loop (Bzip2.decompress_step S F denv sl1) F N 0 s1 with ⟨o, s2⟩
  cases o <;> simp

/-- C1: in a run of `N` iterations, for `1 ≤ k ≤ N`: if the compress calls
1 … k-1 return `BZIP2_SUCCESS` and the `k`-th returns `BZIP2_FAILURE`, then
`run_bzip2` returns `BZIP2_FAILURE` after `k` compress calls and no decompress
call; and if all `N` compress calls return `BZIP2_SUCCESS`, the decompress
calls 1 … k-1 return `BZIP2_SUCCESS` and the `k`-th returns `BZIP2_FAILURE`,
then `run_bzip2` returns `BZIP2_FAILURE` after `N` compress calls and `k`
decompress calls. -/
theorem Bzip2.run_bzip2_failure_propagation (BZIP2_SUCCESS BZIP2_FAILURE LOW_COMPRESSION : Int)
    (hne : BZIP2_SUCCESS ≠ BZIP2_FAILURE)
    (cenv : Nat → Bzip2.CompressEnv) (denv : Nat → Bzip2.DecompressEnv)
    (compression_level : Int) (N k source_len : Nat) (s : State)
    (hk : 1 ≤ k) (hkN : k ≤ N) :
    ((∀ i, i + 1 < k →
          Bzip2.compress_ret BZIP2_SUCCESS BZIP2_FAILURE cenv source_len s i = BZIP2_SUCCESS) →
        Bzip2.compress_ret BZIP2_SUCCESS BZIP2_FAILURE cenv source_len s (k - 1)
          = BZIP2_FAILURE →
        (Bzip2.run_bzip2 BZIP2_SUCCESS BZIP2_FAILURE LOW_COMPRESSION cenv denv compression_level
            (N : Int) source_len s).ret = BZIP2_FAILURE ∧
          (Bzip2.run_bzip2 BZIP2_SUCCESS BZIP2_FAILURE LOW_COMPRESSION cenv denv compression_level
            (N : Int) source_len s).state.compress_calls = s.compress_calls + k ∧
          (Bzip2.run_bzip2 BZIP2_SUCCESS BZIP2_FAILURE LOW_COMPRESSION cenv denv compression_level
            (N : Int) source_len s).state.decompress_calls = s.decompress_calls) ∧
      ((∀ i, i < N →
          Bzip2.compress_ret BZIP2_SUCCESS BZIP2_FAILURE cenv source_len s i = BZIP2_SUCCESS) →
        (∀ i, i + 1 < k →
          Bzip2.decompress_ret BZIP2_SUCCESS BZIP2_FAILURE cenv denv source_len s N i
            = BZIP2_SUCCESS) →
        Bzip2.decompress_ret BZIP2_SUCCESS BZIP2_FAILURE cenv denv source_len s N (k - 1)
          = BZIP2_FAILURE →
        (Bzip2.run_bzip2 BZIP2_SUCCESS BZIP2_FAILURE LOW_COMPRESSION cenv denv compression_level
            (N : Int) source_len s).ret = BZIP2_FAILURE ∧
          (Bzip2.run_bzip2 BZIP2_SUCCESS BZIP2_FAILURE LOW_COMPRESSION cenv denv compression_level
            (N : Int) source_len s).state.compress_calls = s.compress_calls + N ∧
          (Bzip2.run_bzip2 BZIP2_SUCCESS BZIP2_FAILURE LOW_COMPRESSION cenv denv compression_level
            (N : Int) source_len s).state.decompress_calls = s.decompress_calls + k) := by
  have hk1 : k - 1 + 1 = k := by omega
  constructor
  · intro hok hfail
    have hloop := run_loop_abort (Bzip2.compress_step BZIP2_SUCCESS BZIP2_FAILURE cenv)
      BZIP2_FAILURE (k - 1) N 0 (source_len, s) (by omega)
      (by
        intro t ht
        have := hok t (by omega)
        simp only [Nat.zero_add]
        intro hc
        exact hne (this.symm.trans hc))
      (by simpa only [Nat.zero_add] using hfail)
    rw [hk1] at hloop
    have hrun := Bzip2.run_bzip2_compress_abort BZIP2_SUCCESS BZIP2_FAILURE LOW_COMPRESSION cenv
      denv compression_level N source_len s _ hloop
    have hc := Bzip2.compress_pre_counts BZIP2_SUCCESS BZIP2_FAILURE cenv source_len s k
    unfold Bzip2.compress_pre at hc
    rw [hrun.2]
    exact ⟨hrun.1, hc.1, hc.2⟩
  · intro hok hdok hdfail
    have hloop := run_loop_complete (Bzip2.compress_step BZIP2_SUCCESS BZIP2_FAILURE cenv)
      BZIP2_FAILURE N 0 (source_len, s)
      (by
        intro t ht
        have := hok t ht
        simp only [Nat.zero_add]
        intro hc
        exact hne (this.symm.trans hc))
    have hloop2 := run_loop_abort
      (Bzip2.decompress_step BZIP2_SUCCESS BZIP2_FAILURE denv
        (Bzip2.compress_pre BZIP2_SUCCESS BZIP2_FAILURE cenv source_len s N).1)
      BZIP2_FAILURE (k - 1) N 0
      (Bzip2.compress_pre BZIP2_SUCCESS BZIP2_FAILURE cenv source_len s N).2 (by omega)
      (by
        intro t ht
        have := hdok t (by omega)
        simp only [Nat.zero_add]
        intro hc
        exact hne (this.symm.trans hc))
      (by simpa only [Nat.zero_add] using hdfail)
    rw [hk1] at hloop2
    have hrun := Bzip2.run_bzip2_decompress_abort BZIP2_SUCCESS BZIP2_FAILURE LOW_COMPRESSION
      cenv denv compression_level N source_len s _ _ hloop hloop2
    have hc := Bzip2.decompress_pre_counts BZIP2_SUCCESS BZIP2_FAILURE cenv denv source_len s N k
    unfold Bzip2.decompress_pre at hc
    rw [hrun.2]
    exact ⟨hrun.1, hc.1, hc.2⟩

theorem Bzip2.run_bzip2_failure_propagation_witness :
    ((0 : Int) ≠ 1 ∧ 1 ≤ 2 ∧ 2 ≤ 2) ∧
      ((Bzip2.run_bzip2 0 1 0 Bzip2.cenv_fail_after_first (fun _ => Bzip2.denv_ok) 1
            ((2 : Nat) : Int) 0 State.init).ret = 1 ∧
        (Bzip2.run_bzip2 0 1 0 Bzip2.cenv_fail_after_first (fun _ => Bzip2.denv_ok) 1
            ((2 : Nat) : Int) 0 State.init).state.compress_calls
          = State.init.compress_calls + 2 ∧
        (Bzip2.run_bzip2 0 1 0 Bzip2.cenv_fail_after_first (fun _ => Bzip2.denv_ok) 1
            ((2 : Nat) : Int) 0 State.init).state.decompress_calls
          = State.init.decompress_calls) ∧
      ((Bzip2.run_bzip2 0 1 0 (fun _ => Bzip2.cenv_ok) Bzip2.denv_fail_after_first 1
            ((2 : Nat) : Int) 0 State.init).ret = 1 ∧
        (Bzip2.run_bzip2 0 1 0 (fun _ => Bzip2.cenv_ok) Bzip2.denv_fail_after_first 1
            ((2 : Nat) : Int) 0 State.init).state.compress_calls
          = State.init.compress_calls + 2 ∧
        (Bzip2.run_bzip2 0 1 0 (fun _ => Bzip2.cenv_ok) Bzip2.denv_fail_after_first 1
            ((2 : Nat) : Int) 0 State.init).state.decompress_calls
          = State.init.decompress_calls + 2) :=
  ⟨⟨by decide, by decide, by decide⟩,
    (Bzip2.run_bzip2_failure_propagation 0 1 0 (by decide) Bzip2.cenv_fail_after_first
        (fun _ => Bzip2.denv_ok) 1 2 2 0 State.init (by decide) (by decide)).1
      (by
        intro i hi
        obtain rfl : i = 0 := by omega
        simp [Bzip2.compress_ret, Bzip2.compress_pre, loop_state, Bzip2.compress,
          Bzip2.cenv_fail_after_first, Bzip2.cenv_ok, BZ_OK])
      (by
        simp [Bzip2.compress_ret, Bzip2.compress_pre, loop_state, Bzip2.compress_step,
          Bzip2.compress, Bzip2.cenv_fail_after_first, Bzip2.cenv_ok, Bzip2.cenv_alloc_fail,
          BZ_OK]),
    (Bzip2.run_bzip2_failure_propagation 0 1 0 (by decide) (fun _ => Bzip2.cenv_ok)
        Bzip2.denv_fail_after_first 1 2 2 0 State.init (by decide) (by decide)).2
      (by
        intro i _
        simp [Bzip2.compress_ret, Bzip2.compress, Bzip2.cenv_ok, BZ_OK])
      (by
        intro i hi
        obtain rfl : i = 0 := by omega
        simp [Bzip2.decompress_ret, Bzip2.decompress, Bzip2.denv_fail_after_first,
          Bzip2.denv_ok, BZ_OK])
      (by
        simp [Bzip2.decompress_ret, Bzip2.decompress, Bzip2.denv_fail_after_first,
          Bzip2.denv_ok, Bzip2.denv_codec_fail, BZ_OK])⟩

/-! ## The mean compression ratio -/

theorem Bzip2.compress_ratio_of_success (S F : Int) (hne : S ≠ F) (e : Bzip2.CompressEnv)
    (s : State) (h : (Bzip2.compress S F e s).1 = S) :
    (Bzip2.compress S F e s).2.2.mean_compression_ratio
      = s.mean_compression_ratio + (e.bz_output_size : ℚ) / (e.file_size : ℚ) * 100 := by
  have hne2 : F ≠ S := fun h => hne h.symm
  unfold Bzip2.compress at h ⊢
  simp only at h ⊢
  by_cases h1 : (!e.buf_ok) = true
  · rw [if_pos h1] at h
    exact absurd h hne2
  rw [if_neg h1] at h ⊢
  by_cases h2 : (!e.output_ok) = true
  · rw [if_pos h2] at h
    exact absurd h hne2
  rw [if_neg h2] at h ⊢
  by_cases h3 : e.bz_error ≠ BZ_OK
  · rw [if_pos h3] at h
    exact absurd h hne2
  rw [if_neg h3]

theorem Bzip2.compress_pre_ratio (S F : Int) (hne : S ≠ F) (cenv : Nat → Bzip2.CompressEnv)
    (source_len : Nat) (s : State) :
    ∀ t : Nat, (∀ i, i < t → Bzip2.compress_ret S F cenv source_len s i = S) →
      (Bzip2.compress_pre S F cenv source_len s t).2.mean_compression_ratio
        = s.mean_compression_ratio
          + ∑ i in Finset.range t,
              ((cenv i).bz_output_size : ℚ) / ((cenv i).file_size : ℚ) * 100 := by
  intro t
  induction t with
  | zero =>
    intro _
    simp [Bzip2.compress_pre, loop_state]
  | succ t ih =>
    intro hok
    have ht := hok t (by omega)
    have hprev := ih (fun i hi => hok i (by omega))
    unfold Bzip2.compress_ret at ht
    have hstep := Bzip2.compress_ratio_of_success S F hne (cenv t)
      (Bzip2.compress_pre S F cenv source_len s t).2 ht
    have hsucc : Bzip2.compress_pre S F cenv source_len s (t + 1)
        = (Bzip2.compress S F (cenv t) (Bzip2.compress_pre S F cenv source_len s t).2).2 := by
      unfold Bzip2.compress_pre
      rw [loop_state_succ, Nat.zero_add]
      rfl
    rw [hsucc, hstep, hprev, Finset.sum_range_succ, add_assoc]

/-- C7: over exact rationals, with the ratio accumulator at zero when the run
starts, for every `N ≥ 1`: if the `N` compress calls return `BZIP2_SUCCESS`
with source lengths `L_i > 0` and compressed lengths `c_i`, the mean
compression ratio printed by `run_bzip2` is `(1/N) * Σ (c_i / L_i * 100)`. -/
theorem Bzip2.run_bzip2_mean_ratio (BZIP2_SUCCESS BZIP2_FAILURE LOW_COMPRESSION : Int)
    (hne : BZIP2_SUCCESS ≠ BZIP2_FAILURE)
    (cenv : Nat → Bzip2.CompressEnv) (denv : Nat → Bzip2.DecompressEnv)
    (compression_level : Int) (N source_len : Nat) (s : State)
    (_hN : 1 ≤ N) (hzero : s.mean_compression_ratio = 0)
    (hok : ∀ i, i < N →
      Bzip2.compress_ret BZIP2_SUCCESS BZIP2_FAILURE cenv source_len s i = BZIP2_SUCCESS)
    (_hL : ∀ i, i < N → 0 < (cenv i).file_size) :
    (Bzip2.run_bzip2 BZIP2_SUCCESS BZIP2_FAILURE LOW_COMPRESSION cenv denv compression_level
        (N : Int) source_len s).mean_ratio
      = some ((1 / (N : ℚ))
          * ∑ i in Finset.range N,
              ((cenv i).bz_output_size : ℚ) / ((cenv i).file_size : ℚ) * 100) := by
  have hloop := run_loop_complete (Bzip2.compress_step BZIP2_SUCCESS BZIP2_FAILURE cenv)
    BZIP2_FAILURE N 0 (source_len, s)
    (by
      intro t ht
      have := hok t ht
      simp only [Nat.zero_add]
      intro hc
      exact hne (this.symm.trans hc))
  rw [Bzip2.mean_ratio_of_compress_complete BZIP2_SUCCESS BZIP2_FAILURE LOW_COMPRESSION cenv
    denv compression_level N source_len s _ hloop]
  have hsum := Bzip2.compress_pre_ratio BZIP2_SUCCESS BZIP2_FAILURE hne cenv source_len s N hok
  unfold Bzip2.compress_pre at hsum
  rw [hsum, hzero, zero_add, one_div, div_eq_mul_inv, mul_comm]

theorem Bzip2.run_bzip2_mean_ratio_witness :
    ((0 : Int) ≠ 1 ∧ 1 ≤ 2 ∧ State.init.mean_compression_ratio = 0) ∧
      (Bzip2.run_bzip2 0 1 0 (fun _ => Bzip2.cenv_ok) (fun _ => Bzip2.denv_ok) 1
          ((2 : Nat) : Int) 0 State.init).mean_ratio
        = some ((1 / ((2 : Nat) : ℚ))
            * ∑ i in Finset.range 2,
                (((fun _ => Bzip2.cenv_ok) i : Bzip2.CompressEnv).bz_output_size : ℚ)
                  / ((((fun _ => Bzip2.cenv_ok) i : Bzip2.CompressEnv).file_size : Int) : ℚ)
                  * 100) :=
  ⟨⟨by decide, by decide, rfl⟩,
    Bzip2.run_bzip2_mean_ratio 0 1 0 (by decide) (fun _ => Bzip2.cenv_ok)
      (fun _ => Bzip2.denv_ok) 1 2 0 State.init (by decide) rfl
      (by
        intro i _
        simp [Bzip2.compress_ret, Bzip2.compress, Bzip2.cenv_ok, BZ_OK])
      (by
        intro i _
        simp [Bzip2.cenv_ok])⟩

end QemuKvmBenchmark
